import Mathlib

/-!
Verification development for the web-stories-wp repository fragments:
the dashboard settings reducer (known through its unit test and the spec),
the karma test fixture (component stubs, pending hooks, flags, act), and
the panel title height-change handler.
-/

namespace WebStories

/-! ## Dashboard settings reducer

The reducer module itself is not part of the inspected sources; only its
unit test `src/assets/src/dashboard/app/reducer/test/settings.js` is.
The definitions below are therefore modelled from the spec. -/

/-- The failure message shape `{body, title}` used by failure payloads. -/
structure ErrorMessage where
  body : String
  title : String
deriving DecidableEq, Repr

/-- The error object held in settings state. The initial state uses an
empty object, so every field is optional; a normalized failure fills
`message`, `id` and `code`. -/
structure ErrorObj where
  message : Option ErrorMessage := none
  id : Option Nat := none
  code : Option String := none
deriving DecidableEq, Repr

/-- Settings state: an `error` object and the `googleAnalyticsId` field,
which is nullable. -/
structure SettingsState where
  error : ErrorObj := {}
  googleAnalyticsId : Option String := none
deriving DecidableEq, Repr

/-- An action payload: success actions carry `googleAnalyticsId`, failure
actions carry `message` and `code`. Absent fields are `none`. -/
structure SettingsPayload where
  googleAnalyticsId : Option String := none
  message : Option ErrorMessage := none
  code : Option String := none
deriving DecidableEq, Repr

/-- An action: a type tag and a payload. -/
structure SettingsAction where
  type : String
  payload : SettingsPayload
deriving DecidableEq, Repr

def FETCH_SETTINGS_SUCCESS : String := "FETCH_SETTINGS_SUCCESS"
def FETCH_SETTINGS_FAILURE : String := "FETCH_SETTINGS_FAILURE"
def UPDATE_SETTINGS_SUCCESS : String := "UPDATE_SETTINGS_SUCCESS"
def UPDATE_SETTINGS_FAILURE : String := "UPDATE_SETTINGS_FAILURE"

/-- Modelled from the spec: the settings reducer module
`assets/src/dashboard/app/reducer/settings.js` is absent from the
inspected sources (only its unit test is present). Per the spec, the
reducer is a pure function on `{type, payload}` actions; the recognized
types are fetch-success, fetch-failure, update-success and
update-failure; a failure payload `{message, code}` is normalized into
error state `{message, id: Date.now(), code}` with the other state
fields unchanged; a success payload replaces the corresponding state
field (`googleAnalyticsId`) with the payload value; unrecognized types
return the state unchanged. `now` stands for the mocked `Date.now()`. -/
def settingsReducer (now : Nat) (state : SettingsState) (action : SettingsAction) :
    SettingsState :=
  if action.type = FETCH_SETTINGS_FAILURE ∨ action.type = UPDATE_SETTINGS_FAILURE then
    { state with
      error :=
        { message := action.payload.message
          id := some now
          code := action.payload.code } }
  else if action.type = FETCH_SETTINGS_SUCCESS ∨ action.type = UPDATE_SETTINGS_SUCCESS then
    { state with googleAnalyticsId := action.payload.googleAnalyticsId }
  else
    state

/-- C1: for every failure action (type FETCH_SETTINGS_FAILURE or
UPDATE_SETTINGS_FAILURE) with payload `{message, code}`, the reducer
returns a state whose error field equals `{message, id: now, code}` and
whose other state fields are unchanged. -/
theorem settingsReducer_failure (now : Nat) (state : SettingsState)
    (action : SettingsAction)
    (h : action.type = FETCH_SETTINGS_FAILURE ∨ action.type = UPDATE_SETTINGS_FAILURE) :
    settingsReducer now state action =
      { state with
        error :=
          { message := action.payload.message
            id := some now
            code := action.payload.code } } := by
  unfold settingsReducer
  rw [if_pos h]

/-- Witness for C1: the literal example from the spec, with the mocked
`Date.now()` value used by the unit test. -/
theorem settingsReducer_failure_witness :
    settingsReducer 1592844570916
        { error := {}, googleAnalyticsId := none }
        { type := "FETCH_SETTINGS_FAILURE"
          payload :=
            { message := some { body := "x", title := "y" }
              code := some "E1" } } =
      { error :=
          { message := some { body := "x", title := "y" }
            id := some 1592844570916
            code := some "E1" }
        googleAnalyticsId := none } := by
  exact settingsReducer_failure 1592844570916
    { error := {}, googleAnalyticsId := none }
    { type := "FETCH_SETTINGS_FAILURE"
      payload :=
        { message := some { body := "x", title := "y" }
          code := some "E1" } }
    (Or.inl rfl)

/-- C5: for every success action carrying an id-bearing payload, the
reducer returns a state in which the corresponding state field
(`googleAnalyticsId`) is replaced exactly with the payload value, the
other fields unchanged. -/
theorem settingsReducer_success (now : Nat) (state : SettingsState)
    (action : SettingsAction)
    (h : action.type = FETCH_SETTINGS_SUCCESS ∨ action.type = UPDATE_SETTINGS_SUCCESS) :
    settingsReducer now state action =
      { state with googleAnalyticsId := action.payload.googleAnalyticsId } := by
  have hne : ¬(action.type = FETCH_SETTINGS_FAILURE ∨
      action.type = UPDATE_SETTINGS_FAILURE) := by
    rcases h with h | h <;> rw [h] <;> decide
  unfold settingsReducer
  rw [if_neg hne, if_pos h]

/-- Witness for C5: the FETCH_SETTINGS_SUCCESS example from the unit
test. -/
theorem settingsReducer_success_witness :
    settingsReducer 1592844570916
        { error := {}, googleAnalyticsId := none }
        { type := "FETCH_SETTINGS_SUCCESS"
          payload := { googleAnalyticsId := some "fakeId12345" } } =
      { error := {}, googleAnalyticsId := some "fakeId12345" } := by
  exact settingsReducer_success 1592844570916
    { error := {}, googleAnalyticsId := none }
    { type := "FETCH_SETTINGS_SUCCESS"
      payload := { googleAnalyticsId := some "fakeId12345" } }
    (Or.inl rfl)

/-- C6: applying the same success action twice yields the same state as
applying it once. -/
theorem settingsReducer_success_idem (now : Nat) (state : SettingsState)
    (action : SettingsAction)
    (h : action.type = FETCH_SETTINGS_SUCCESS ∨ action.type = UPDATE_SETTINGS_SUCCESS) :
    settingsReducer now (settingsReducer now state action) action =
      settingsReducer now state action := by
  have hne : ¬(action.type = FETCH_SETTINGS_FAILURE ∨
      action.type = UPDATE_SETTINGS_FAILURE) := by
    rcases h with h | h <;> rw [h] <;> decide
  unfold settingsReducer
  rw [if_neg hne, if_pos h, if_neg hne, if_pos h]

/-- Witness for C6: the success action of the unit test, applied twice
from the initial state. -/
theorem settingsReducer_success_idem_witness :
    settingsReducer 1592844570916
        (settingsReducer 1592844570916
          { error := {}, googleAnalyticsId := none }
          { type := "FETCH_SETTINGS_SUCCESS"
            payload := { googleAnalyticsId := some "fakeId12345NEW" } })
        { type := "FETCH_SETTINGS_SUCCESS"
          payload := { googleAnalyticsId := some "fakeId12345NEW" } } =
      settingsReducer 1592844570916
        { error := {}, googleAnalyticsId := none }
        { type := "FETCH_SETTINGS_SUCCESS"
          payload := { googleAnalyticsId := some "fakeId12345NEW" } } := by
  exact settingsReducer_success_idem 1592844570916
    { error := {}, googleAnalyticsId := none }
    { type := "FETCH_SETTINGS_SUCCESS"
      payload := { googleAnalyticsId := some "fakeId12345NEW" } }
    (Or.inl rfl)

/-- C7: for every state and every action whose type is none of the four
recognized types, the reducer returns the state unchanged (and, being a
total function, raises no error). -/
theorem settingsReducer_unrecognized (now : Nat) (state : SettingsState)
    (action : SettingsAction)
    (h1 : action.type ≠ FETCH_SETTINGS_SUCCESS)
    (h2 : action.type ≠ FETCH_SETTINGS_FAILURE)
    (h3 : action.type ≠ UPDATE_SETTINGS_SUCCESS)
    (h4 : action.type ≠ UPDATE_SETTINGS_FAILURE) :
    settingsReducer now state action = state := by
  unfold settingsReducer
  rw [if_neg (by simp [h2, h4]), if_neg (by simp [h1, h3])]

/-- Witness for C7: an unrecognized action type leaves the state
untouched. -/
theorem settingsReducer_unrecognized_witness :
    settingsReducer 1592844570916
        { error := {}, googleAnalyticsId := some "keep" }
        { type := "SOME_OTHER_ACTION", payload := {} } =
      { error := {}, googleAnalyticsId := some "keep" } := by
  exact settingsReducer_unrecognized 1592844570916
    { error := {}, googleAnalyticsId := some "keep" }
    { type := "SOME_OTHER_ACTION", payload := {} }
    (by decide) (by decide) (by decide) (by decide)

/-! ## Karma fixture: component stub registry

From `src/assets/src/edit-story/karma/fixture.js`. Component identities
are modelled as natural-number ids; element props carry the `_wrapped`
marker and an abstract payload consulted by matchers. -/

/-- Props passed at element construction: the `_wrapped` marker set by a
stub wrapper to bypass re-interception, plus an abstract payload. -/
structure ElemProps where
  wrapped : Bool := false
  tag : Nat := 0
deriving DecidableEq, Repr

/-- One registered substitution rule: an optional matcher predicate and
the id of the replacement wrapper component (the fields `_matcher` and
`_wrapper` of a `ComponentStub`). -/
structure StubRule where
  matcher : Option (ElemProps → Bool) := none
  wrapper : Nat

/-- The predicate the `createElement` spy tests a rule with: a rule with
no matcher always matches, otherwise its matcher decides. -/
def stubMatches (props : ElemProps) (stub : StubRule) : Bool :=
  match stub.matcher with
  | none => true
  | some m => m props

/-- The `_componentStubs` map: an association list from component id to
the ordered list of rules registered for it. -/
abbrev StubRegistry : Type := List (Nat × List StubRule)

/-- `Fixture.stubComponent`: appends a rule to the list registered for
the component, creating the list when the component has none yet. -/
def stubComponent (registry : StubRegistry) (component : Nat) (rule : StubRule) :
    StubRegistry :=
  match List.lookup component registry with
  | none => registry ++ [(component, [rule])]
  | some _ =>
      registry.map (fun e => if e.1 = component then (e.1, e.2 ++ [rule]) else e)

/-- The `React.createElement` spy: when props are not marked `_wrapped`
and rules are registered for the instantiated identity, the first rule
whose matcher is absent or accepts the props supplies the replacement
type; otherwise the original type is used. Returns the type the element
is constructed with. -/
def createElementType (registry : StubRegistry) (type_ : Nat) (props : ElemProps) :
    Nat :=
  if props.wrapped then type_
  else
    match List.lookup type_ registry with
    | none => type_
    | some stubs =>
        match stubs.find? (stubMatches props) with
        | none => type_
        | some m => m.wrapper

/-- C3: stub lookup at element construction scans the rules registered
for the identity in registration order and the first rule whose
predicate is absent or accepts the props supplies the replacement; with
no registered or matching rule the original component is used; with one
predicated rule registered before one unconditional rule, props
accepted by the predicate select the first wrapper and other props
select the unconditional wrapper. -/
theorem createElementType_firstMatch (registry : StubRegistry) (ty : Nat)
    (props : ElemProps) (p : ElemProps → Bool) (w1 w2 : Nat)
    (hw : props.wrapped = false) :
    (List.lookup ty registry = none → createElementType registry ty props = ty) ∧
    (∀ stubs, List.lookup ty registry = some stubs →
      stubs.find? (stubMatches props) = none →
      createElementType registry ty props = ty) ∧
    (∀ stubs r, List.lookup ty registry = some stubs →
      stubs.find? (stubMatches props) = some r →
      createElementType registry ty props = r.wrapper) ∧
    (createElementType
        (stubComponent (stubComponent [] ty { matcher := some p, wrapper := w1 })
          ty { matcher := none, wrapper := w2 })
        ty props = if p props then w1 else w2) := by
  refine ⟨?_, ?_, ?_, ?_⟩
  · intro hnone
    simp [createElementType, hw, hnone]
  · intro stubs hsome hfind
    simp [createElementType, hw, hsome, hfind]
  · intro stubs r hsome hfind
    simp [createElementType, hw, hsome, hfind]
  · simp only [stubComponent, List.lookup]
    simp only [createElementType, hw, Bool.false_eq_true, if_false]
    by_cases hp : p props
    · simp [List.lookup, List.find?, stubMatches, hp]
    · simp [List.lookup, List.find?, stubMatches, hp]

/-- Witness for C3: a matcher accepting only props tagged 1; props with
tag 1 select the predicated wrapper 10, props with tag 2 select the
unconditional wrapper 20. -/
theorem createElementType_firstMatch_witness :
    createElementType
        (stubComponent
          (stubComponent [] 5 { matcher := some (fun pr => pr.tag = 1), wrapper := 10 })
          5 { matcher := none, wrapper := 20 })
        5 { wrapped := false, tag := 1 } = 10 ∧
    createElementType
        (stubComponent
          (stubComponent [] 5 { matcher := some (fun pr => pr.tag = 1), wrapper := 10 })
          5 { matcher := none, wrapper := 20 })
        5 { wrapped := false, tag := 2 } = 20 := by
  constructor
  · have h := (createElementType_firstMatch
      (stubComponent (stubComponent [] 5 { matcher := some (fun pr => pr.tag = 1), wrapper := 10 })
        5 { matcher := none, wrapper := 20 })
      5 { wrapped := false, tag := 1 } (fun pr => pr.tag = 1) 10 20 rfl).2.2.2
    simpa using h
  · have h := (createElementType_firstMatch
      (stubComponent (stubComponent [] 5 { matcher := some (fun pr => pr.tag = 1), wrapper := 10 })
        5 { matcher := none, wrapper := 20 })
      5 { wrapped := false, tag := 2 } (fun pr => pr.tag = 1) 10 20 rfl).2.2.2
    simpa using h

/-! ## Karma fixture: flags -/

/-- The feature flags object, as a list of named boolean flags. -/
abbrev Flags : Type := List (String × Bool)

/-- The parts of `Fixture` state relevant to flags and configuration. -/
structure FixtureState where
  flags : Flags := []
  storyId : Nat := 1
deriving Repr

/-- `Fixture.setFlags`: replaces the whole `_flags` object with a
shallow copy of the argument. -/
def setFlags (fx : FixtureState) (flags : Flags) : FixtureState :=
  { fx with flags := flags }

/-- C8: setFlags replaces the entire flag set rather than merging: after
any sequence of setFlags calls ending in setFlags f, the flags equal f
alone, earlier flags discarded, and the rest of the fixture state is
untouched. -/
theorem setFlags_replaces (fx : FixtureState) (prior : List Flags) (f : Flags) :
    (setFlags (prior.foldl setFlags fx) f).flags = f ∧
    (setFlags (prior.foldl setFlags fx) f).storyId = fx.storyId := by
  constructor
  · rfl
  · induction prior generalizing fx with
    | nil => rfl
    | cons g gs ih => exact ih (setFlags fx g)

/-! ## Karma fixture: component stub instance

State of one `ComponentStub` and its `Wrapper` component. Hooks are
zero-argument procedures returning an integer; `executedResults`
records, in order, the values the hook promises are resolved with. -/

/-- Per-stub mutable state: the implementation override, the latest
captured props, the `refresher` counter, whether the first render has
assigned `setRefresher`, the `pendingHooks` queue, the memoized drained
hook list together with the `refresher` value it was computed at, and
the log of promise resolutions. -/
structure StubModel where
  implementation : Option Nat := none
  props : Option Nat := none
  refresher : Nat := 0
  setRefresherAssigned : Bool := false
  pending : List (Unit → Int) := []
  memoRefresher : Option Nat := none
  memoHooks : List (Unit → Int) := []
  executedResults : List Int := []

/-- `ComponentStub._refresh`: wrapped in `act`, it calls
`setRefresher((v) => v + 1)` only when `setRefresher` has been assigned
by a render; calling an undefined setter would throw, hence the
`Except` type, but the guard leaves the state unchanged instead. -/
def stubRefresh (s : StubModel) : Except String StubModel :=
  if s.setRefresherAssigned then
    Except.ok { s with refresher := s.refresher + 1 }
  else
    Except.ok s

/-- `ComponentStub._pushPendingHook`: appends the hook to the pending
queue (its promise resolver paired with it) and triggers a refresh. -/
def pushPendingHook (f : Unit → Int) (s : StubModel) : Except String StubModel :=
  stubRefresh { s with pending := s.pending ++ [f] }

/-- `ComponentStub.mockImplementation` (alias `callFake`): stores the
implementation override and triggers a refresh. -/
def mockImplementation (impl : Nat) (s : StubModel) : Except String StubModel :=
  stubRefresh { s with implementation := some impl }

/-- One render pass of the stub `Wrapper`: captures the incoming props,
assigns `setRefresher`, and computes the `hooks` memo keyed on
`refresher` — when `refresher` changed since the last memo computation
the pending queue is drained (copied then emptied) into the memo,
otherwise the cached memo is reused; `HookExecutor` then runs each hook
of the memo in order, resolving its promise with its return value. -/
def renderStub (props : Nat) (s : StubModel) : StubModel :=
  let s0 := { s with props := some props, setRefresherAssigned := true }
  if s0.memoRefresher = some s0.refresher then
    { s0 with
      executedResults := s0.executedResults ++ s0.memoHooks.map (fun f => f ()) }
  else
    { s0 with
      pending := []
      memoRefresher := some s0.refresher
      memoHooks := s0.pending
      executedResults := s0.executedResults ++ s0.pending.map (fun f => f ()) }

/-- C2: from a mounted, flushed stub state, enqueueing hooks h1 then h2
before any flush and then rendering executes both hooks in the single
render pass that follows, in FIFO order, each exactly once, resolving
h1 before h2 and each with its own return value; the pending
queue is drained. -/
theorem stub_hooks_fifo (s : StubModel) (h1 h2 : Unit → Int) (p : Nat)
    (hA : s.setRefresherAssigned = true)
    (hP : s.pending = [])
    (hM : s.memoRefresher = some s.refresher)
    (s1 s2 : StubModel)
    (hs1 : pushPendingHook h1 s = Except.ok s1)
    (hs2 : pushPendingHook h2 s1 = Except.ok s2) :
    (renderStub p s2).executedResults = s.executedResults ++ [h1 (), h2 ()] ∧
    (renderStub p s2).pending = [] ∧
    (renderStub p s2).memoRefresher = some (renderStub p s2).refresher := by
  have e1 : s1 = { s with pending := s.pending ++ [h1], refresher := s.refresher + 1, setRefresherAssigned := true } := by
    have h := hs1
    simp only [pushPendingHook, stubRefresh, hA, if_true, Except.ok.injEq] at h
    exact h.symm
  have e2 : s2 = { s with pending := s.pending ++ [h1] ++ [h2], refresher := s.refresher + 2, setRefresherAssigned := true } := by
    have h := hs2
    rw [e1] at h
    simp only [pushPendingHook, stubRefresh, if_true, Except.ok.injEq] at h
    exact h.symm
  have hne : ¬(s.memoRefresher = some (s.refresher + 2)) := by
    rw [hM]
    simp
  subst e2
  simp [renderStub, hne, hP]

/-- Witness for C2: a freshly rendered stub with refresher 0; the hooks
return 1 and 2 and are resolved in that order by the next render. -/
theorem stub_hooks_fifo_witness :
    (renderStub 7 { setRefresherAssigned := true, memoRefresher := some 0, pending := [fun _ => (1 : Int), fun _ => (2 : Int)], refresher := 2 }).executedResults = [1, 2] ∧
    (renderStub 7 { setRefresherAssigned := true, memoRefresher := some 0, pending := [fun _ => (1 : Int), fun _ => (2 : Int)], refresher := 2 }).pending = [] := by
  have h := stub_hooks_fifo
    { setRefresherAssigned := true, memoRefresher := some 0 }
    (fun _ => (1 : Int)) (fun _ => (2 : Int)) 7 rfl rfl rfl
    { setRefresherAssigned := true, memoRefresher := some 0, pending := [fun _ => (1 : Int)], refresher := 1 }
    { setRefresherAssigned := true, memoRefresher := some 0, pending := [fun _ => (1 : Int), fun _ => (2 : Int)], refresher := 2 }
    rfl rfl
  exact ⟨by simpa using h.1, h.2.1⟩

/-- C9: calling mockImplementation (or callFake) before the wrapper has
rendered for the first time does not throw: the refresh is a no-op
while the refresher setter is still unset, so the call just records the
implementation override. -/
theorem mockImplementation_before_render (impl : Nat) (s : StubModel)
    (h : s.setRefresherAssigned = false) :
    mockImplementation impl s = Except.ok { s with implementation := some impl } ∧
    stubRefresh s = Except.ok s := by
  constructor
  · simp [mockImplementation, stubRefresh, h]
  · simp [stubRefresh, h]

/-- Witness for C9: mocking on a never-rendered stub succeeds and only
sets the implementation field. -/
theorem mockImplementation_before_render_witness :
    mockImplementation 3 {} = Except.ok { implementation := some 3 } ∧
    stubRefresh {} = Except.ok {} := by
  exact mockImplementation_before_render 3 {} rfl

/-! ## Karma fixture: the act orchestration boundary

`actPromise` wraps the testing-library `act()`. The external `act` is
modelled from the spec: it runs its body, then flushes the pending
state updates — the asynchronous ones as well when the body returned a
thenable, which `actPromise` forces by returning
`Promise.resolve(callbackResult)` from the body. The world tracks
pending synchronous and asynchronous updates and a flush log. -/

/-- Pending state updates at the scheduling boundary. -/
structure UpdateWorld where
  syncPending : List Nat := []
  asyncPending : List Nat := []
  flushed : List Nat := []
deriving DecidableEq, Repr

/-- Flushing moves pending updates to the flushed log; asynchronous
updates are included only when the boundary awaits them. -/
def flushUpdates (alsoAsync : Bool) (w : UpdateWorld) : UpdateWorld :=
  let w1 := { w with syncPending := [], flushed := w.flushed ++ w.syncPending }
  if alsoAsync then
    { w1 with asyncPending := [], flushed := w1.flushed ++ w1.asyncPending }
  else w1

/-- Modelled from the spec: the external testing-library `act()`
scheduling boundary. It runs the body and flushes resulting state
updates before settling; asynchronous updates are awaited exactly when
the body returned a thenable. -/
def reactAct {α : Type} (bodyThenable : Bool) (body : UpdateWorld → UpdateWorld × α)
    (w : UpdateWorld) : UpdateWorld × α :=
  let r := body w
  (flushUpdates bodyThenable r.1, r.2)

/-- `actPromise`: stores the callback result, passes `act` a body whose
result is normalized to a promise (`Promise.resolve(callbackResult)`, so
the boundary is always asynchronous), and resolves with the stored
callback result once the boundary has settled. -/
def actPromise {α : Type} (callback : UpdateWorld → UpdateWorld × α)
    (w : UpdateWorld) : UpdateWorld × α :=
  reactAct true (fun w0 => callback w0) w

/-- C4: actPromise resolves with the callback result, and only
after every state update caused by the callback — the asynchronous ones
included, because the boundary result is normalized to a promise — has
been flushed. -/
theorem actPromise_resolves {α : Type} (callback : UpdateWorld → UpdateWorld × α)
    (w : UpdateWorld) :
    (actPromise callback w).2 = (callback w).2 ∧
    (actPromise callback w).1.syncPending = [] ∧
    (actPromise callback w).1.asyncPending = [] := by
  refine ⟨rfl, ?_, ?_⟩ <;> simp [actPromise, reactAct, flushUpdates]

/-! ## Panel title: height clamp

From `src/assets/src/edit-story/components/panels/panel/shared/title.js`.
JavaScript numbers are modelled as rationals; `Math.round(x)` is
`⌊x + 1/2⌋`. -/

/-- JavaScript `Math.round`. -/
def jsRound (x : ℚ) : ℤ := Int.floor (x + 1 / 2)

/-- `maxHeight` in `Title`: 70 percent of the inspector content height,
rounded. -/
def titleMaxHeight (inspectorContentHeight : ℚ) : ℤ :=
  jsRound (inspectorContentHeight * (7 / 10))

/-- `handleHeightChange`: when resizeable, sets the height to
`Math.max(0, Math.min(maxHeight, value + deltaHeight))`; otherwise it
does nothing and the height keeps its value. -/
def handleHeightChange (resizeable : Bool) (inspectorContentHeight : ℚ)
    (value deltaHeight : ℤ) : ℤ :=
  if resizeable then
    max 0 (min (titleMaxHeight inspectorContentHeight) (value + deltaHeight))
  else value

/-- C10: with a nonnegative inspector content height, handleHeightChange
clamps: when resizeable the new height is
`max(0, min(round(inspectorContentHeight * 0.7), value + deltaHeight))`
and stays within `[0, round(inspectorContentHeight * 0.7)]`; when not
resizeable the height is unchanged. -/
theorem handleHeightChange_clamps (h : ℚ) (hh : 0 ≤ h) (value delta : ℤ) :
    handleHeightChange true h value delta =
      max 0 (min (titleMaxHeight h) (value + delta)) ∧
    0 ≤ handleHeightChange true h value delta ∧
    handleHeightChange true h value delta ≤ titleMaxHeight h ∧
    handleHeightChange false h value delta = value := by
  have hmax : (0 : ℤ) ≤ titleMaxHeight h := by
    have hq : ((0 : ℤ) : ℚ) ≤ h * (7 / 10) + 1 / 2 := by
      have : (0 : ℚ) ≤ h * (7 / 10) := by
        apply mul_nonneg hh
        norm_num
      push_cast
      linarith
    exact Int.le_floor.mpr hq
  refine ⟨rfl, ?_, ?_, rfl⟩
  · simp [handleHeightChange]
  · simp only [handleHeightChange, if_true]
    exact max_le hmax (min_le_left _ _)

/-- Witness for C10: inspector content height 100, so the maximum is
round(70) = 70; moving from height 3 by 4 gives 7, inside the range. -/
theorem handleHeightChange_clamps_witness :
    (0 : ℚ) ≤ 100 ∧
    handleHeightChange true 100 3 4 = max 0 (min (titleMaxHeight 100) (3 + 4)) ∧
    0 ≤ handleHeightChange true 100 3 4 ∧
    handleHeightChange true 100 3 4 ≤ titleMaxHeight 100 ∧
    handleHeightChange false 100 3 4 = 3 := by
  refine ⟨by norm_num, ?_⟩
  exact handleHeightChange_clamps 100 (by norm_num) 3 4

end WebStories
